import Mathlib

/-!
Verification of the openclaw-memory utilities: a shallow embedding of
`scripts/cache_manager.py`, `scripts/smart_read.py` and
`scripts/smart_fetch.py`, together with theorems settling the spec's
claims about them.

Modelling conventions:
* Timestamps are natural numbers (`datetime.now()` instants); a TTL of
  `h` hours adds `h * 3600` to the current instant, mirroring
  `timedelta(hours=ttl_hours)`.
* The filesystem state visible to `cache_manager.py` is a `CacheState`:
  the parsed content of `index.json` (`none` when the file holds
  unparseable JSON, in which case `load_index` falls back to `{}` via
  its `except` clause) and the blob files as an association list from
  file name to content.
* Python `dict` indexing/assignment is modelled by `lookupA`/`updateA`
  on association lists (assignment replaces in place, insertion appends,
  exactly like an insertion-ordered `dict`).
* `store`'s `cache_id` is `sha256(content + str(time.time()))[:12]` in
  the source — a value depending on the wall clock — so the id is taken
  as an explicit argument of the embedded `store`.
-/

namespace OpenClaw

/-- Association-list lookup, the model of Python `dict` read access
(`index[cache_id]`, `cache_id in index`). -/
def lookupA {α : Type} : List (String × α) → String → Option α
  | [], _ => none
  | (k, v) :: t, k' => if k = k' then some v else lookupA t k'

/-- Association-list update, the model of Python `dict` assignment
(`index[cache_id] = entry`): replace in place when the key is present,
append otherwise. -/
def updateA {α : Type} : List (String × α) → String → α → List (String × α)
  | [], k, v => [(k, v)]
  | (k', v') :: t, k, v => if k' = k then (k, v) :: t else (k', v') :: updateA t k v

/-- One record of `index.json` (`cache_manager.py` lines 30-31). -/
structure Entry where
  file : String
  source : String
  created : Nat
  expires : Nat
  size_bytes : Nat
  tokens_estimated : Nat
deriving Repr, DecidableEq

/-- The parsed content of `index.json`: a mapping from cache id to entry. -/
abbrev Index := List (String × Entry)

/-- The filesystem state owned by `cache_manager.py`: `index.json`
(`none` = file holds unparseable JSON) and the blob files. -/
structure CacheState where
  indexFile : Option Index
  blobs : List (String × String)
deriving Repr, DecidableEq

/-- `load_index` (`cache_manager.py` lines 12-18): parse `index.json`,
falling back to `{}` (the `except` clause) when it is unparseable. -/
def load_index (s : CacheState) : Index := s.indexFile.getD []

/-- `save_index` (`cache_manager.py` lines 20-22): overwrite `index.json`
with the given mapping (a plain `write_text`, no lock, no atomic rename). -/
def save_index (s : CacheState) (index : Index) : CacheState :=
  { s with indexFile := some index }

/-- The blob file name `f"{cache_id}.txt"` (`cache_manager.py` line 26). -/
def blobPath (cache_id : String) : String := cache_id ++ ".txt"

/-- The value `store` returns (`cache_manager.py` lines 33-34);
`retrieve_cmd` is a fixed format string over `cache_id` and is omitted. -/
structure StoreResult where
  cache_id : String
  expires : Nat
  tokens_estimated : Nat
deriving Repr, DecidableEq

/-- `store` (`cache_manager.py` lines 24-34): write the blob, then
read-modify-write `index.json` with the new entry. `now` is the
`datetime.now()` instant, `cache_id` the generated fingerprint. -/
def store (s : CacheState) (now : Nat) (cache_id content source : String)
    (ttl_hours : Nat) : CacheState × StoreResult :=
  let cache_file := blobPath cache_id
  let s₁ : CacheState := { s with blobs := updateA s.blobs cache_file content }
  let expires := now + ttl_hours * 3600
  let index := load_index s₁
  let entry : Entry :=
    { file := cache_file, source := source, created := now, expires := expires,
      size_bytes := content.length, tokens_estimated := content.length / 4 }
  (save_index s₁ (updateA index cache_id entry),
   { cache_id := cache_id, expires := expires, tokens_estimated := content.length / 4 })

/-- The structured results of `get` (`cache_manager.py` lines 36-49).
The optional `section` keyword-excerpt argument (lines 44-48) is not
modelled: no claim refers to it; every `get` below is a whole-content
read (`section=None`). -/
inductive GetResult where
  | notFound (cache_id : String)
  | fileMissing
  | expired
  | found (content : String) (tokens_estimated : Nat)
deriving Repr, DecidableEq

/-- `get` (`cache_manager.py` lines 36-43, 49), with the source's check
order: index membership, then blob existence (`File missing`), then
expiry (`datetime.now() > expires`, a strict comparison). `get` writes
nothing: it returns a result and leaves the state as it found it. -/
def get (s : CacheState) (now : Nat) (cache_id : String) : GetResult :=
  match lookupA (load_index s) cache_id with
  | none => .notFound cache_id
  | some entry =>
    match lookupA s.blobs entry.file with
    | none => .fileMissing
    | some content =>
      if entry.expires < now then .expired
      else .found content (content.length / 4)

/-- The counts printed by `--cleanup` (`cache_manager.py` line 83). -/
structure CleanupResult where
  removed : Nat
  remaining : Nat
deriving Repr, DecidableEq

/-- `cleanup` (`cache_manager.py` lines 77-83): keep exactly the index
entries with `expires > now` and overwrite `index.json` with them.
The blob files are not touched. -/
def cleanup (s : CacheState) (now : Nat) : CacheState × CleanupResult :=
  let index := load_index s
  let kept := index.filter (fun kv => now < kv.2.expires)
  (save_index s kept,
   { removed := index.length - kept.length, remaining := kept.length })

/-- The entry count reported by `--list` (`cache_manager.py` lines 69-72). -/
def listCount (s : CacheState) : Nat := (load_index s).length

/-- The entry count reported by `--stats` (`cache_manager.py` lines 73-76). -/
def statsEntries (s : CacheState) : Nat := (load_index s).length

/-- The byte total reported by `--stats` (`cache_manager.py` line 75). -/
def statsTotalBytes (s : CacheState) : Nat :=
  ((load_index s).map (fun kv => kv.2.size_bytes)).sum

/-!
The retriever scripts `smart_read.py` and `smart_fetch.py`. Python text
is modelled as `List Char` (a Python `str` is a sequence of code
points), with the source's `str` operations defined by structural
recursion below. `context_percent` is a Python float compared only
against the exact constants 0.4/0.6/0.8; it is modelled as `ℚ`.
-/

/-- Python `text.split('\n')` (`content.split('\n')` in both scripts):
`splitLines [] = [[]]` mirrors `''.split('\n') == ['']`. -/
def splitLines : List Char → List (List Char)
  | [] => [[]]
  | c :: rest =>
    match splitLines rest with
    | [] => [[c]]
    | h :: t => if c = '\n' then [] :: h :: t else (c :: h) :: t

/-- Python `'\n'.join(lines)`. -/
def joinLines : List (List Char) → List Char
  | [] => []
  | [l] => l
  | l :: ls => l ++ '\n' :: joinLines ls

/-- Python `s.startswith(p)` for one pattern; a tuple argument is the
disjunction of the single-pattern tests. -/
def startsWithL : List Char → List Char → Bool
  | _, [] => true
  | [], _ :: _ => false
  | c :: s, p :: ps => c = p && startsWithL s ps

/-- Python `pat in s` (substring containment, used by
`extract_js_signatures`). -/
def containsL : List Char → List Char → Bool
  | [], pat => startsWithL [] pat
  | c :: rest, pat => startsWithL (c :: rest) pat || containsL rest pat

/-- Python `s.lstrip()`; the sources only ever strip ASCII whitespace. -/
def pyLstrip (s : List Char) : List Char := s.dropWhile Char.isWhitespace

/-- Python `s.strip()`. -/
def pyStrip (s : List Char) : List Char :=
  ((s.dropWhile Char.isWhitespace).reverse.dropWhile Char.isWhitespace).reverse

/-- `count_tokens` (`smart_read.py` lines 10-15, `smart_fetch.py` lines
11-16): the `len(text)//4` estimator of the `except` branch. The `try`
branch delegates to the optional external `tiktoken` library, an
environment-dependent collaborator that is not part of this repository;
the scripts ship with, and are analysed with, the `//4` fallback. -/
def count_tokens (text : List Char) : Nat := text.length / 4

/-- `get_budget` (`smart_read.py` lines 17-21 and, verbatim duplicate,
`smart_fetch.py` lines 18-22). -/
def get_budget (ctx : ℚ) : Nat :=
  if ctx < 0.4 then 10000
  else if ctx < 0.6 then 5000
  else if ctx < 0.8 then 2000
  else 500

/-- `extract_python_signatures` (`smart_read.py` lines 23-29): keep the
original line whenever its `lstrip()` starts with an import/def/class
keyword. -/
def extract_python_signatures (content : List Char) : List Char :=
  joinLines ((splitLines content).filter fun line =>
    let s := pyLstrip line
    startsWithL s "import ".toList || startsWithL s "from ".toList ||
      startsWithL s "class ".toList || startsWithL s "def ".toList ||
      startsWithL s "async def ".toList)

/-- `extract_js_signatures` (`smart_read.py` lines 31-37). -/
def extract_js_signatures (content : List Char) : List Char :=
  joinLines ((splitLines content).filter fun line =>
    let s := pyStrip line
    (startsWithL s "import ".toList || startsWithL s "export ".toList ||
      startsWithL s "function ".toList || startsWithL s "async function ".toList ||
      startsWithL s "class ".toList || startsWithL s "const ".toList) &&
    (containsL s "=>".toList || containsL s "\x7b".toList || containsL s "class ".toList))

/-- The salience test of `summarize` (`smart_fetch.py` line 35), applied
to the already-stripped line: starts with `#`, `-`, `*` or the literal
prefix `1.`, or has trimmed length strictly between 10 and 200. -/
def salient (s : List Char) : Bool :=
  startsWithL s "#".toList || startsWithL s "-".toList || startsWithL s "*".toList ||
    startsWithL s "1.".toList || (decide (10 < s.length) && decide (s.length < 200))

/-- `summarize` (`smart_fetch.py` lines 33-36): the stripped salient
lines, at most the first 50, joined by newline; when no line is salient,
the raw text truncated to `max_tokens * 4` characters. -/
def summarize (content : List Char) (max_tokens : Nat) : List Char :=
  let key := (splitLines content).filterMap fun l =>
    let s := pyStrip l
    if salient s then some s else none
  if key.isEmpty then content.take (max_tokens * 4) else joinLines (key.take 50)

/-- The delivery mode tag of a retriever result (`"signatures"`,
`"summary"`, `"full"` in the JSON output). -/
inductive Mode where
  | signatures
  | summary
  | full
deriving Repr, DecidableEq

/-- The result dictionary a retriever call builds. `cached` records
whether `cache_store` was invoked and a `cache_id`/`get_full_cmd` pair
attached; `savings_percent` is present only in summary mode. The Python
`round(x, 1)` applied to `savings_percent` for display is omitted: no
claim depends on the rounding. -/
structure ReadResult where
  mode : Mode
  content : List Char
  content_tokens : Nat
  cached : Bool
  savings_percent : Option ℚ
deriving Repr, DecidableEq

/-- Outcome of a Python call that can raise `ZeroDivisionError`. -/
inductive PyOutcome (α : Type) where
  | ok (val : α)
  | zeroDivisionError
deriving Repr, DecidableEq

/-- `needs_summary = force_summary or (not force_full and tokens > budget)`
(`smart_read.py` line 62 and, identically, `smart_fetch.py` line 44):
the delivery-mode decision; the caller returns summary mode exactly when
it is `true`. -/
def needs_summary (force_summary force_full : Bool) (tokens budget : Nat) : Bool :=
  force_summary || (!force_full && decide (budget < tokens))

/-- `round((1-count_tokens(summary)/tokens)*100,1)` (`smart_read.py`
line 69, `smart_fetch.py` line 52): Python raises `ZeroDivisionError`
when `tokens == 0`; otherwise the percentage (un-rounded, see
`ReadResult`). -/
def savings_percent_calc (reduced_tokens tokens : Nat) : PyOutcome ℚ :=
  if tokens = 0 then .zeroDivisionError
  else .ok ((1 - (reduced_tokens : ℚ) / (tokens : ℚ)) * 100)

/-- The summary text of `smart_read` (`smart_read.py` lines 66-67):
first 50 raw lines joined by newline, plus an elision marker when lines
were dropped. -/
def read_summary_text (content : List Char) : List Char :=
  let lines := splitLines content
  joinLines (lines.take 50) ++
    (if 50 < lines.length then
      "\n\n... [".toList ++ (toString (lines.length - 50)).toList ++ " more lines] ...".toList
    else [])

/-- The extension dispatch of the signatures branch (`smart_read.py`
line 52): Python extractor for `.py`, JS extractor for `.js`/`.ts`, the
unsupported-kind sentinel otherwise. `ext` is the file's lower-cased
suffix. -/
def sig_extract (ext : String) (content : List Char) : List Char :=
  if ext = ".py" then extract_python_signatures content
  else if ext = ".js" ∨ ext = ".ts" then extract_js_signatures content
  else "[Not supported for ".toList ++ ext.toList ++ "]".toList

/-- `smart_read` (`smart_read.py` lines 39-73) on a readable file whose
text is `content` and whose lower-cased suffix is `ext`. The comparison
`sig_tokens < tokens * 0.5` of line 54 is `2 * sig_tokens < tokens` over
the integers (halving an int is exact in a float). Caching the full
content is recorded by the `cached` flag; the generated `cache_id` value
is wall-clock dependent (see `store`) and not part of the result here. -/
def smart_read (content : List Char) (ext : String) (context_percent : ℚ)
    (signatures_only force_summary force_full : Bool) : PyOutcome ReadResult :=
  let tokens := count_tokens content
  let budget := get_budget context_percent
  if signatures_only then
    let sigs := sig_extract ext content
    let sig_tokens := count_tokens sigs
    if 2 * sig_tokens < tokens then
      .ok { mode := .signatures, content := sigs, content_tokens := sig_tokens,
            cached := true, savings_percent := none }
    else
      .ok { mode := .signatures, content := sigs, content_tokens := sig_tokens,
            cached := false, savings_percent := none }
  else
    if needs_summary force_summary force_full tokens budget then
      let summary := read_summary_text content
      match savings_percent_calc (count_tokens summary) tokens with
      | .zeroDivisionError => .zeroDivisionError
      | .ok sp =>
        .ok { mode := .summary, content := summary, content_tokens := count_tokens summary,
              cached := true, savings_percent := some sp }
    else
      .ok { mode := .full, content := content, content_tokens := tokens,
            cached := false, savings_percent := none }

/-- Outcome of a `smart_fetch` call; `fetchFailed` is the early return
of `smart_fetch.py` line 40 for a failed URL fetch. -/
inductive FetchOutcome where
  | fetchFailed (msg : List Char)
  | ok (val : ReadResult)
  | zeroDivisionError
deriving Repr, DecidableEq

/-- `smart_fetch` (`smart_fetch.py` lines 38-56); the network read is an
external collaborator, so the fetched body (or error text) and the error
flag of `fetch_url` are arguments. -/
def smart_fetch (content : List Char) (fetch_error : Bool) (context_percent : ℚ)
    (force_summary force_full : Bool) : FetchOutcome :=
  if fetch_error then .fetchFailed content
  else
    let tokens := count_tokens content
    let budget := get_budget context_percent
    if needs_summary force_summary force_full tokens budget then
      let summary := summarize content (min budget 2000)
      match savings_percent_calc (count_tokens summary) tokens with
      | .zeroDivisionError => .zeroDivisionError
      | .ok sp =>
        .ok { mode := .summary, content := summary, content_tokens := count_tokens summary,
              cached := true, savings_percent := some sp }
    else
      .ok { mode := .full, content := content, content_tokens := tokens,
            cached := false, savings_percent := none }

/-- The mode of a `smart_read` result, when the call did not crash. -/
def readMode? : PyOutcome ReadResult → Option Mode
  | .ok r => some r.mode
  | .zeroDivisionError => none

/-- Whether a `smart_read` call cached the full content. -/
def readCached : PyOutcome ReadResult → Bool
  | .ok r => r.cached
  | .zeroDivisionError => false

/-- The delivered content of a `smart_read` result. -/
def readContent? : PyOutcome ReadResult → Option (List Char)
  | .ok r => some r.content
  | .zeroDivisionError => none

/-- The delivered content of a `smart_fetch` result. -/
def fetchContent? : FetchOutcome → Option (List Char)
  | .ok r => some r.content
  | _ => none

/-!
The concurrency hazard of the index (spec §5). A `store` call touches
`index.json` twice: it reads it whole (`load_index`, line 29) and later
overwrites it whole (`save_index`, line 32) with its own entry added —
with nothing in between or around to exclude other writers. Each
concurrent `store` process is modelled by those two atomic file
accesses; a schedule is a list of process indices, and running a
schedule interleaves the processes' steps against the shared file.
-/

/-- One concurrent `store` process: the id it generated and the index
entry it will add. -/
structure Proc where
  id : String
  entry : Entry
deriving Repr, DecidableEq

/-- Where a `store` process stands: before its `load_index`, after it
(holding its private in-memory copy of the index), or after its
`save_index`. -/
inductive Phase where
  | start
  | loaded (localIndex : Index)
  | done
deriving Repr, DecidableEq

/-- One step of one `store` process against the shared index file:
`load_index` reads the file into the process's local copy;
`save_index` overwrites the file with the local copy plus the process's
own entry (`index[cache_id] = entry` then `write_text`). A finished
process leaves the file alone. -/
def stepProc (fileIndex : Index) (p : Proc) : Phase → Index × Phase
  | .start => (fileIndex, .loaded fileIndex)
  | .loaded localIndex => (updateA localIndex p.id p.entry, .done)
  | .done => (fileIndex, .done)

/-- Positional list access (`l[i]` as an `Option`), used to pick the
scheduled process. -/
def nthA {α : Type} : List α → Nat → Option α
  | [], _ => none
  | x :: _, 0 => some x
  | _ :: t, n + 1 => nthA t n

/-- Run a schedule: at each schedule position, the named process (an
index into the process list; out-of-range entries are skipped) performs
its next step against the shared index file. -/
def runSched : List Nat → Index → List (Proc × Phase) → Index × List (Proc × Phase)
  | [], idx, ps => (idx, ps)
  | i :: rest, idx, ps =>
    match nthA ps i with
    | none => runSched rest idx ps
    | some q =>
      let r := stepProc idx q.1 q.2
      runSched rest r.1 (ps.set i (q.1, r.2))

/-- The fully sequential (mutually excluded) schedule for `n` processes:
each process performs its load immediately followed by its save before
the next process starts. -/
def seqSched : Nat → List Nat
  | 0 => []
  | n + 1 => 0 :: 0 :: (seqSched n).map Nat.succ

/-- The effect of running the given stores one after another on an
index: fold their read-modify-write updates. -/
def runStores (idx : Index) (ps : List Proc) : Index :=
  ps.foldl (fun i p => updateA i p.id p.entry) idx

/-!
Concrete inputs used by counterexamples and witnesses.
-/

/-- An entry created at 0 that expires at instant 100, backed by blob
file `aa.txt`. -/
def entry_a : Entry :=
  { file := "aa.txt", source := "s", created := 0, expires := 100,
    size_bytes := 2, tokens_estimated := 0 }

/-- A store holding the single entry `"aa"` with its blob intact. -/
def state_a : CacheState :=
  { indexFile := some [("aa", entry_a)], blobs := [("aa.txt", "hi")] }

/-- A store holding the single entry `"aa"` whose blob file is gone
(index/blob desync). -/
def state_b : CacheState :=
  { indexFile := some [("aa", entry_a)], blobs := [] }

/-- A store whose `index.json` holds unparseable JSON, with an orphan
blob on disk. -/
def state_corrupt : CacheState :=
  { indexFile := none, blobs := [("zz.txt", "old")] }

/-- A `store` process with the given id (the entry written is immaterial
to the index-race analysis). -/
def mkProc (s : String) : Proc := { id := s, entry := entry_a }

/-- Ten concurrent `store` processes with pairwise distinct ids. -/
def procs10 : List Proc :=
  [mkProc "a0", mkProc "a1", mkProc "a2", mkProc "a3", mkProc "a4",
   mkProc "a5", mkProc "a6", mkProc "a7", mkProc "a8", mkProc "a9"]

/-- The schedule in which all ten processes read the index before any
writes it back. -/
def racySched : List Nat :=
  [0, 1, 2, 3, 4, 5, 6, 7, 8, 9, 0, 1, 2, 3, 4, 5, 6, 7, 8, 9]

/-!
Theorems. First the association-list and scheduling lemmas, then one
theorem per claim (with its counterexample and witness where needed).
-/

theorem lookupA_updateA_self {α : Type} (l : List (String × α)) (k : String) (v : α) :
    lookupA (updateA l k v) k = some v := by
  induction l with
  | nil => simp [lookupA, updateA]
  | cons hd t ih =>
    obtain ⟨k', v'⟩ := hd
    by_cases h : k' = k
    · simp [updateA, h, lookupA]
    · simp [updateA, h, lookupA, ih]

theorem lookupA_updateA_ne {α : Type} (l : List (String × α)) (k k' : String) (v : α)
    (h : k' ≠ k) : lookupA (updateA l k v) k' = lookupA l k' := by
  induction l with
  | nil =>
    have : ¬ k = k' := fun hh => h hh.symm
    simp [lookupA, updateA, this]
  | cons hd t ih =>
    obtain ⟨k₀, v₀⟩ := hd
    by_cases hk : k₀ = k
    · subst hk
      have : ¬ k₀ = k' := fun hh => h hh.symm
      simp [updateA, lookupA, this]
    · simp [updateA, hk, lookupA, ih]

theorem length_updateA_of_lookupA_none {α : Type} (l : List (String × α)) (k : String) (v : α)
    (h : lookupA l k = none) : (updateA l k v).length = l.length + 1 := by
  induction l with
  | nil => simp [updateA]
  | cons hd t ih =>
    obtain ⟨k₀, v₀⟩ := hd
    by_cases hk : k₀ = k
    · simp [lookupA, hk] at h
    · simp [lookupA, hk] at h
      simp [updateA, hk, ih h]

theorem runSched_map_succ (sched : List Nat) (idx : Index) (x : Proc × Phase)
    (ps : List (Proc × Phase)) :
    runSched (sched.map Nat.succ) idx (x :: ps) =
      ((runSched sched idx ps).1, x :: (runSched sched idx ps).2) := by
  induction sched generalizing idx ps with
  | nil => rfl
  | cons i rest ih =>
    have hn : nthA (x :: ps) (Nat.succ i) = nthA ps i := rfl
    simp only [List.map_cons, runSched, hn]
    cases h : nthA ps i with
    | none => simp [h, ih]
    | some q =>
      simp only [h]
      have hset : (x :: ps).set (i + 1) (q.1, (stepProc idx q.1 q.2).2) =
          x :: ps.set i (q.1, (stepProc idx q.1 q.2).2) := rfl
      simp [hset, ih]

theorem runSched_seqSched (ps : List Proc) (idx : Index) :
    runSched (seqSched ps.length) idx (ps.map fun p => (p, Phase.start)) =
      (runStores idx ps, ps.map fun p => (p, Phase.done)) := by
  induction ps generalizing idx with
  | nil => rfl
  | cons p t ih =>
    have h2 : runSched (seqSched (p :: t).length) idx
        ((p :: t).map fun q => (q, Phase.start)) =
        runSched ((seqSched t.length).map Nat.succ) (updateA idx p.id p.entry)
          ((p, Phase.done) :: t.map fun q => (q, Phase.start)) := rfl
    rw [h2, runSched_map_succ, ih]
    rfl

theorem lookupA_runStores_of_ne (ps : List Proc) (idx : Index) (k : String)
    (h : ∀ p ∈ ps, p.id ≠ k) : lookupA (runStores idx ps) k = lookupA idx k := by
  induction ps generalizing idx with
  | nil => rfl
  | cons p t ih =>
    have step : runStores idx (p :: t) = runStores (updateA idx p.id p.entry) t := rfl
    rw [step, ih _ fun q hq => h q (List.mem_cons_of_mem _ hq),
      lookupA_updateA_ne _ _ _ _ fun hk => h p (List.mem_cons_self _ _) hk.symm]

theorem length_runStores (ps : List Proc) (idx : Index)
    (hfresh : ∀ p ∈ ps, lookupA idx p.id = none)
    (hnodup : (ps.map Proc.id).Nodup) :
    (runStores idx ps).length = idx.length + ps.length := by
  induction ps generalizing idx with
  | nil => rfl
  | cons p t ih =>
    have step : runStores idx (p :: t) = runStores (updateA idx p.id p.entry) t := rfl
    rw [List.map_cons, List.nodup_cons] at hnodup
    have hfresh' : ∀ q ∈ t, lookupA (updateA idx p.id p.entry) q.id = none := by
      intro q hq
      have hne : q.id ≠ p.id := fun hh =>
        hnodup.1 (hh ▸ List.mem_map_of_mem Proc.id hq)
      rw [lookupA_updateA_ne _ _ _ _ hne]
      exact hfresh q (List.mem_cons_of_mem _ hq)
    rw [step, ih _ hfresh' hnodup.2,
      length_updateA_of_lookupA_none _ _ _ (hfresh p (List.mem_cons_self _ _))]
    simp [List.length_cons]
    omega

theorem lookupA_runStores_self (ps : List Proc) (idx : Index) (p : Proc)
    (hmem : p ∈ ps) (hnodup : (ps.map Proc.id).Nodup) :
    lookupA (runStores idx ps) p.id = some p.entry := by
  induction ps generalizing idx with
  | nil => cases hmem
  | cons q t ih =>
    rw [List.map_cons, List.nodup_cons] at hnodup
    have step : runStores idx (q :: t) = runStores (updateA idx q.id q.entry) t := rfl
    rcases List.mem_cons.mp hmem with h | h
    · subst h
      have hne : ∀ r ∈ t, r.id ≠ p.id := fun r hr hh =>
        hnodup.1 (hh ▸ List.mem_map_of_mem Proc.id hr)
      rw [step, lookupA_runStores_of_ne _ _ _ hne, lookupA_updateA_self]
    · exact step ▸ ih _ h hnodup.2

/-- C5: round trip — for every text, every prior store state and every
TTL, storing the text and immediately (same instant, blob intact)
calling `get` with the returned id yields exactly the stored content. -/
theorem store_get_round_trip (s : CacheState) (now : Nat) (cache_id content source : String)
    (ttl_hours : Nat) :
    get ((store s now cache_id content source ttl_hours).1) now cache_id =
      .found content (content.length / 4) := by
  have hexp : ¬ (now + ttl_hours * 3600 < now) := by omega
  simp [get, store, save_index, load_index, lookupA_updateA_self, hexp]

/-- C2 (counterexample): in `state_a` the single entry `"aa"` is expired
at `now = 200` (`expiresAt = 100 ≤ 200`), and `cleanup` at 200 does
remove it from the index — but the entry's backing blob `aa.txt` is
still present afterwards, refuting the claim that `cleanup` physically
deletes the removed entry's blob file. -/
theorem cleanup_claim_counterexample :
    entry_a.expires ≤ 200 ∧
    lookupA (load_index (cleanup state_a 200).1) "aa" = none ∧
    (cleanup state_a 200).2.removed = 1 ∧
    lookupA ((cleanup state_a 200).1).blobs "aa.txt" = some "hi" := by
  decide

/-- C2 (amended): for every store state and time `now`, `cleanup`
removes from the index every entry with `expiresAt ≤ now`, keeps every
entry with `expiresAt > now`, reports counts summing to the old entry
count, and is idempotent (an immediate second `cleanup` removes 0 and
leaves state and remaining count unchanged) — but it deletes no blob
files: the blob store is untouched. -/
theorem cleanup_spec (s : CacheState) (now : Nat) :
    (∀ kv ∈ load_index (cleanup s now).1, now < kv.2.expires) ∧
    (∀ kv ∈ load_index s, now < kv.2.expires → kv ∈ load_index (cleanup s now).1) ∧
    (∀ kv ∈ load_index s, kv.2.expires ≤ now → kv ∉ load_index (cleanup s now).1) ∧
    ((cleanup s now).1).blobs = s.blobs ∧
    (cleanup s now).2.removed + (cleanup s now).2.remaining = (load_index s).length ∧
    (cleanup (cleanup s now).1 now).2.removed = 0 ∧
    (cleanup (cleanup s now).1 now).2.remaining = (cleanup s now).2.remaining ∧
    (cleanup (cleanup s now).1 now).1 = (cleanup s now).1 := by
  have hkept : load_index (cleanup s now).1 =
      (load_index s).filter (fun kv => now < kv.2.expires) := rfl
  have hself : ((load_index s).filter (fun kv => now < kv.2.expires)).filter
      (fun kv => now < kv.2.expires) =
      (load_index s).filter (fun kv => now < kv.2.expires) :=
    List.filter_eq_self.mpr fun a ha => (List.mem_filter.mp ha).2
  simp only [load_index] at hself
  refine ⟨?_, ?_, ?_, rfl, ?_, ?_, ?_, ?_⟩
  · intro kv hkv
    rw [hkept] at hkv
    simpa using (List.mem_filter.mp hkv).2
  · intro kv hkv hlt
    rw [hkept]
    exact List.mem_filter.mpr ⟨hkv, by simpa using hlt⟩
  · intro kv hkv hle hmem
    rw [hkept] at hmem
    have := (List.mem_filter.mp hmem).2
    simp at this
    omega
  · have hle := List.length_filter_le (fun kv => now < kv.2.expires) (load_index s)
    simp only [cleanup]
    omega
  · simp only [cleanup, load_index, save_index, Option.getD_some, hself]
    omega
  · simp only [cleanup, load_index, save_index, Option.getD_some, hself]
  · simp only [cleanup, load_index, save_index, Option.getD_some, hself]

/-- C3 (counterexample): at `now = 100`, exactly the expiry instant of
entry `"aa"` (so `now ≥ expiresAt`), `get` succeeds with the content —
the source's expiry test is the strict `datetime.now() > expires` — and
for the same entry, expired at `now = 200` but with its blob missing
(`state_b`), `get` reports the missing file, not `Expired`: the blob
check precedes the expiry check. Both refute the claim. -/
theorem get_expiry_claim_counterexample :
    (100 : Nat) ≥ entry_a.expires ∧
    get state_a 100 "aa" = .found "hi" 0 ∧
    get state_a 100 "aa" ≠ .expired ∧
    (200 : Nat) ≥ entry_a.expires ∧
    get state_b 200 "aa" = .fileMissing := by
  decide

/-- C3 (amended): for an indexed entry, `get` (which never writes any
state: it is a pure read in this model) reports the missing blob
whenever the blob cannot be read — even for an expired entry — and,
when the blob is readable, returns `Expired` exactly when
`now > expiresAt` (strictly; at `now = expiresAt` the content is still
returned); an entry stored with `ttl = 0` expires at its creation
instant, so `get` returns `Expired` at every strictly later `now`. -/
theorem get_expiry_spec (s : CacheState) (now : Nat) (cache_id : String) (entry : Entry)
    (hlk : lookupA (load_index s) cache_id = some entry) :
    (lookupA s.blobs entry.file = none → get s now cache_id = .fileMissing) ∧
    (∀ c, lookupA s.blobs entry.file = some c → entry.expires < now →
      get s now cache_id = .expired) ∧
    (∀ c, lookupA s.blobs entry.file = some c → now ≤ entry.expires →
      get s now cache_id = .found c (c.length / 4)) ∧
    (∀ (s' : CacheState) (n n' : Nat) (c src : String), n < n' →
      get ((store s' n cache_id c src 0).1) n' cache_id = .expired) := by
  refine ⟨?_, ?_, ?_, ?_⟩
  · intro hb
    simp [get, hlk, hb]
  · intro c hb hlt
    simp [get, hlk, hb, hlt]
  · intro c hb hle
    simp [get, hlk, hb, Nat.not_lt.mpr hle]
  · intro s' n n' c src hlt
    simp [get, store, save_index, load_index, lookupA_updateA_self]
    omega

/-- C3 (witness): the amended theorem applied to the concrete store
`state_a`, its entry `"aa"`, and `now = 200`. -/
theorem get_expiry_spec_witness :
    (lookupA state_a.blobs entry_a.file = none → get state_a 200 "aa" = .fileMissing) ∧
    (∀ c, lookupA state_a.blobs entry_a.file = some c → entry_a.expires < 200 →
      get state_a 200 "aa" = .expired) ∧
    (∀ c, lookupA state_a.blobs entry_a.file = some c → 200 ≤ entry_a.expires →
      get state_a 200 "aa" = .found c (c.length / 4)) ∧
    (∀ (s' : CacheState) (n n' : Nat) (c src : String), n < n' →
      get ((store s' n "aa" c src 0).1) n' "aa" = .expired) :=
  get_expiry_spec state_a 200 "aa" entry_a (by decide)

/-- C10: when `index.json` holds unparseable JSON, `load_index` falls
back to `{}`, so every operation sees an empty cache: `get` returns
`NotFound` for every id, `list` and `stats` report zero entries and zero
bytes, the next `store` persists a fresh index holding only the new
entry (every previously indexed entry is silently dropped), and
`cleanup` persists a fresh empty index reporting 0 removed, 0
remaining. -/
theorem corrupt_index_spec (s : CacheState) (h : s.indexFile = none) :
    (∀ now cache_id, get s now cache_id = .notFound cache_id) ∧
    listCount s = 0 ∧ statsEntries s = 0 ∧ statsTotalBytes s = 0 ∧
    (∀ now cache_id content src ttl,
      (load_index ((store s now cache_id content src ttl).1)).length = 1) ∧
    (∀ now cache_id content src ttl old_id, old_id ≠ cache_id →
      lookupA (load_index ((store s now cache_id content src ttl).1)) old_id = none) ∧
    (∀ now, (cleanup s now).1.indexFile = some [] ∧
      (cleanup s now).2.removed = 0 ∧ (cleanup s now).2.remaining = 0) := by
  have hl : load_index s = [] := by rw [load_index, h]; rfl
  refine ⟨?_, ?_, ?_, ?_, ?_, ?_, ?_⟩
  · intro now cache_id
    simp [get, hl, lookupA]
  · simp [listCount, hl]
  · simp [statsEntries, hl]
  · simp [statsTotalBytes, hl]
  · intro now cache_id content src ttl
    simp [store, save_index, load_index, h, updateA]
  · intro now cache_id content src ttl old_id hne
    simp [store, save_index, load_index, h, updateA, lookupA]
    exact fun hh => hne hh.symm
  · intro now
    refine ⟨?_, ?_, ?_⟩ <;> simp [cleanup, save_index, hl]

/-- C10 (witness): the theorem applied to the concrete corrupt-index
store `state_corrupt`. -/
theorem corrupt_index_spec_witness :
    (∀ now cache_id, get state_corrupt now cache_id = .notFound cache_id) ∧
    listCount state_corrupt = 0 ∧ statsEntries state_corrupt = 0 ∧
    statsTotalBytes state_corrupt = 0 ∧
    (∀ now cache_id content src ttl,
      (load_index ((store state_corrupt now cache_id content src ttl).1)).length = 1) ∧
    (∀ now cache_id content src ttl old_id, old_id ≠ cache_id →
      lookupA (load_index ((store state_corrupt now cache_id content src ttl).1)) old_id = none) ∧
    (∀ now, (cleanup state_corrupt now).1.indexFile = some [] ∧
      (cleanup state_corrupt now).2.removed = 0 ∧ (cleanup state_corrupt now).2.remaining = 0) :=
  corrupt_index_spec state_corrupt rfl

/-- C1 (counterexample): for the Python file text `"def f():\n    pass"`
the extracted signature text (`"def f():"`) has 2 estimated tokens — at
least half of the full text's 4 — yet `smart_read` with
`signatures_only` does NOT cache the full content, refuting the claim
that the full content is cached exactly when the signature token count
is at least half the full token count. -/
theorem signature_cache_claim_counterexample :
    2 * count_tokens (extract_python_signatures "def f():\n    pass".toList) ≥
      count_tokens "def f():\n    pass".toList ∧
    readCached (smart_read "def f():\n    pass".toList ".py" (1/2) true false false) = false := by
  decide

/-- C1 (amended): whenever signature extraction is requested, the mode
is `signatures` regardless of the context pressure (hence of the
budget), and the full content is cached exactly when the signature
text's token count is strictly UNDER half the full token count; at half
or more the content is not cached and no cache id is attached. -/
theorem signature_mode_and_cache_spec (content : List Char) (ext : String) (ctx : ℚ)
    (fs ff : Bool) (r : ReadResult)
    (h : smart_read content ext ctx true fs ff = .ok r) :
    r.mode = .signatures ∧
    (r.cached = true ↔ 2 * r.content_tokens < count_tokens content) := by
  simp only [smart_read, if_true] at h
  split at h
  · cases h
    rename_i hcond
    simp [hcond]
  · cases h
    rename_i hcond
    simp [hcond]

/-- C1 (witness): the amended theorem at the concrete input
`"def f():\n    pass"` (a `.py` file, pressure 1/2): the mode is
`signatures` and nothing is cached, since the 2 signature tokens are not
under half of the 4 full tokens. -/
theorem signature_mode_and_cache_spec_witness :
    ({ mode := Mode.signatures, content := "def f():".toList, content_tokens := 2,
       cached := false, savings_percent := none } : ReadResult).mode = Mode.signatures ∧
    (({ mode := Mode.signatures, content := "def f():".toList, content_tokens := 2,
        cached := false, savings_percent := none } : ReadResult).cached = true ↔
      2 * ({ mode := Mode.signatures, content := "def f():".toList, content_tokens := 2,
             cached := false, savings_percent := none } : ReadResult).content_tokens <
        count_tokens "def f():\n    pass".toList) :=
  signature_mode_and_cache_spec "def f():\n    pass".toList ".py" (1/2) false false
    { mode := Mode.signatures, content := "def f():".toList, content_tokens := 2,
      cached := false, savings_percent := none } (by decide)

/-- C4: `smart_read` of an existing empty file with `force_summary`, and
`smart_fetch` of a URL whose fetched body is empty with `force_summary`,
both raise an uncaught `ZeroDivisionError` while computing
`savings_percent` (the `count_tokens(summary)/tokens` division with
`tokens == 0`) instead of returning a structured summary result —
refuting, on the code as written, the claim that every entry point
returns a structured result and that `forceSummary` succeeds at token
count 0 with a well-defined savings percentage. -/
theorem force_summary_empty_crash :
    smart_read "".toList ".txt" (1/2) false true false = .zeroDivisionError ∧
    smart_fetch "".toList false (1/2) true false = .zeroDivisionError := by
  decide

/-- C7: the two paths do NOT apply the same reduction. On the text
`"ab\n0123456789ab"` with `force_summary`, `smart_fetch` summarizes by
salient-line selection (keeping only the stripped 12-character line),
while `smart_read` keeps the first 50 raw lines verbatim (here: the
whole text), so the two summary outputs differ. -/
theorem summary_paths_claim_divergence :
    fetchContent? (smart_fetch "ab\n0123456789ab".toList false (1/2) true false) =
      some "0123456789ab".toList ∧
    readContent? (smart_read "ab\n0123456789ab".toList ".txt" (1/2) false true false) =
      some "ab\n0123456789ab".toList ∧
    fetchContent? (smart_fetch "ab\n0123456789ab".toList false (1/2) true false) ≠
      readContent? (smart_read "ab\n0123456789ab".toList ".txt" (1/2) false true false) := by
  decide

/-- C8: `get_budget` is the four-tier step function of the claim
(10000 under 0.4, 5000 on [0.4, 0.6), 2000 on [0.6, 0.8), 500 from 0.8
up), and is antitone: higher context pressure never yields a larger
budget. -/
theorem budget_tiers_and_monotone (p p₁ p₂ : ℚ) (h : p₁ < p₂) :
    (p < 0.4 → get_budget p = 10000) ∧
    (0.4 ≤ p → p < 0.6 → get_budget p = 5000) ∧
    (0.6 ≤ p → p < 0.8 → get_budget p = 2000) ∧
    (0.8 ≤ p → get_budget p = 500) ∧
    get_budget p₂ ≤ get_budget p₁ := by
  unfold get_budget
  refine ⟨fun h₁ => ?_, fun h₁ h₂ => ?_, fun h₁ h₂ => ?_, fun h₁ => ?_, ?_⟩ <;>
    split_ifs <;> first | rfl | linarith

/-- C8 (witness): the theorem at pressure 1/2 (tier facts) and at the
pair 3/10 < 9/10 (monotonicity). -/
theorem budget_tiers_and_monotone_witness :
    ((1 / 2 : ℚ) < 0.4 → get_budget (1 / 2) = 10000) ∧
    (0.4 ≤ (1 / 2 : ℚ) → (1 / 2 : ℚ) < 0.6 → get_budget (1 / 2) = 5000) ∧
    (0.6 ≤ (1 / 2 : ℚ) → (1 / 2 : ℚ) < 0.8 → get_budget (1 / 2) = 2000) ∧
    (0.8 ≤ (1 / 2 : ℚ) → get_budget (1 / 2) = 500) ∧
    get_budget (9 / 10) ≤ get_budget (3 / 10) :=
  budget_tiers_and_monotone (1 / 2) (3 / 10) (9 / 10) (by norm_num)

/-- C9: the shared delivery-mode decision (`needs_summary` on line 44 of
`smart_fetch.py` and line 62 of `smart_read.py`, with summary mode taken
exactly when it is true): `force_summary` gives summary even when
`force_full` is also set; `force_full` alone gives full at every token
count; with neither flag, summary exactly when `tokens > budget`, full
otherwise. -/
theorem decide_mode_spec (tokens budget : Nat) (ff : Bool) :
    (if needs_summary true ff tokens budget then Mode.summary else Mode.full) = Mode.summary ∧
    (if needs_summary false true tokens budget then Mode.summary else Mode.full) = Mode.full ∧
    (budget < tokens →
      (if needs_summary false false tokens budget then Mode.summary else Mode.full) =
        Mode.summary) ∧
    (tokens ≤ budget →
      (if needs_summary false false tokens budget then Mode.summary else Mode.full) =
        Mode.full) := by
  refine ⟨by simp [needs_summary], by simp [needs_summary],
    fun h => by simp [needs_summary, h],
    fun h => by simp [needs_summary, Nat.not_lt.mpr h]⟩

/-- C6 (counterexample): ten concurrent `store` processes with pairwise
distinct ids against an initially empty index, interleaved so that every
process performs its `load_index` before any performs its `save_index`,
leave a single entry in the shared index: a subsequent `list` reports 1
entry, not 10 — the read-modify-write of `cache_manager.py` lines 29-32
has no lock and no atomic replace, so concurrent writers lose entries,
refuting the claim. -/
theorem concurrent_stores_counterexample :
    (procs10.map Proc.id).Nodup ∧ procs10.length = 10 ∧
    (runSched racySched [] (procs10.map fun p => (p, Phase.start))).1.length = 1 := by
  decide

/-- C6 (amended): the index update is an unguarded whole-file
read-modify-write, and interleaved stores can lose entries (see the
counterexample); when the N stores run without interleaving — each
load_index/save_index pair mutually excluded, the `seqSched` schedule —
with pairwise distinct ids fresh for the index, every id is a distinct
new entry and the index afterwards holds exactly N more entries, so
`list` reports all N. -/
theorem sequential_stores_spec (ps : List Proc) (idx : Index)
    (hnodup : (ps.map Proc.id).Nodup)
    (hfresh : ∀ p ∈ ps, lookupA idx p.id = none) :
    (runSched (seqSched ps.length) idx (ps.map fun p => (p, Phase.start))).1.length =
      idx.length + ps.length ∧
    (∀ p ∈ ps,
      lookupA (runSched (seqSched ps.length) idx (ps.map fun p => (p, Phase.start))).1 p.id =
        some p.entry) := by
  rw [runSched_seqSched]
  exact ⟨length_runStores ps idx hfresh hnodup,
    fun p hp => lookupA_runStores_self ps idx p hp hnodup⟩

/-- C6 (witness): two sequential stores with distinct fresh ids on an
empty index leave exactly two entries, each retrievable. -/
theorem sequential_stores_spec_witness :
    (runSched (seqSched 2) [] ([mkProc "a0", mkProc "a1"].map fun p => (p, Phase.start))).1.length =
      0 + 2 ∧
    (∀ p ∈ [mkProc "a0", mkProc "a1"],
      lookupA
        (runSched (seqSched 2) [] ([mkProc "a0", mkProc "a1"].map fun p => (p, Phase.start))).1
        p.id = some p.entry) :=
  sequential_stores_spec [mkProc "a0", mkProc "a1"] [] (by decide) (by decide)

end OpenClaw
